import Mathlib

/-!
Shallow embedding of the frame-presentation loop of
`src/examples/007_basic_triangle.rs` (SakulFlee/Vulkan-Engine).

The example's `main` sets up a vertex buffer, a pipeline, framebuffers and
one command buffer per framebuffer, then runs a winit event loop.  We embed
the pure record/build helpers directly and the event-loop body as a step
function on an explicit loop state.  Results coming back from the device
layer and the presentation engine (swapchain rebuild outcome, image
acquisition, flush/wait outcome) are external inputs of each tick, supplied
by an `Oracle` value.  Framebuffer sets handed back by the device layer are
fresh GPU objects on every rebuild; we model that freshness with a
generation tag drawn from a counter in the loop state (the instrumentation
the spec itself suggests for checking staleness).
-/

namespace VulkanTriangle

/-- `winit::dpi::PhysicalSize`: a width/height pair (u32 in resize events). -/
structure PhysicalSize where
  width : Nat
  height : Nat
deriving DecidableEq

/-- A float constant of the source in exact decimal-literal form: the value
is `mantissa / 10 ^ exponent`.  The embedded code never computes with these
floats — they are fixed literals (vertex coordinates, clear color, depth
range) — so literal identity is all the model needs. -/
structure FloatLit where
  mantissa : Int
  exponent : Nat
deriving DecidableEq

/-- `SVertex`: a 2-d position vertex record. -/
structure SVertex where
  position : FloatLit × FloatLit
deriving DecidableEq

/-- `let vertex1 = SVertex { position: [-0.5, -0.5] }`. -/
def vertex1 : SVertex := ⟨(⟨-5, 1⟩, ⟨-5, 1⟩)⟩

/-- `let vertex2 = SVertex { position: [0.0, 0.5] }`. -/
def vertex2 : SVertex := ⟨(⟨0, 0⟩, ⟨5, 1⟩)⟩

/-- `let vertex3 = SVertex { position: [0.5, -0.25] }`. -/
def vertex3 : SVertex := ⟨(⟨5, 1⟩, ⟨-25, 2⟩)⟩

/-- The vertex buffer built by `Buffer::from_iter(..., vec![vertex1, vertex2,
vertex3])`: an immutable array of the three triangle vertices. -/
def vertex_buffer : List SVertex := [vertex1, vertex2, vertex3]

/-- Opaque shader-module handles (`shader_vertex::load` / `shader_fragment::load`). -/
inductive ShaderModule where
  | vertex007
  | fragment007
deriving DecidableEq

/-- Opaque render pass produced once by `create_render_pass()`. -/
inductive RenderPass where
  | mk
deriving DecidableEq

/-- Opaque logical-device handle. -/
inductive LogicalDevice where
  | mk
deriving DecidableEq

/-- `SVertex::per_vertex()` vertex-input state. -/
inductive VertexInputState where
  | sVertexPerVertex
deriving DecidableEq

/-- `InputAssemblyState::new()`. -/
inductive InputAssemblyState where
  | new
deriving DecidableEq

/-- `vulkano::pipeline::graphics::viewport::Viewport` as built by
`create_viewport`. -/
structure Viewport where
  origin : FloatLit × FloatLit
  dimensions : Nat × Nat
  depth_range_lo : FloatLit
  depth_range_hi : FloatLit
deriving DecidableEq

/-- `create_viewport(physical_size)`: origin [0.0, 0.0], dimensions from the
physical size, depth range 0.0..1.0. -/
def create_viewport (physical_size : PhysicalSize) : Viewport :=
  { origin := (⟨0, 0⟩, ⟨0, 0⟩)
    dimensions := (physical_size.width, physical_size.height)
    depth_range_lo := ⟨0, 0⟩
    depth_range_hi := ⟨1, 0⟩ }

/-- The result of the `GraphicsPipeline::start()...build()` chain in
`create_pipeline`: vertex input, both shader stages, input assembly, the
fixed viewport (which bakes in the surface size), the subpass and the
device. -/
structure GraphicsPipeline where
  vertex_input : VertexInputState
  vertex_shader : ShaderModule
  input_assembly : InputAssemblyState
  viewport : Viewport
  fragment_shader : ShaderModule
  subpass : RenderPass × Nat
  device : LogicalDevice
deriving DecidableEq

/-- `create_pipeline(vertex_shader, fragment_shader, physical_size,
render_pass, logical_device)`: a pure function of its inputs. -/
def create_pipeline (vertex_shader : ShaderModule) (fragment_shader : ShaderModule)
    (physical_size : PhysicalSize) (render_pass : RenderPass)
    (logical_device : LogicalDevice) : GraphicsPipeline :=
  { vertex_input := VertexInputState.sVertexPerVertex
    vertex_shader := vertex_shader
    input_assembly := InputAssemblyState.new
    viewport := create_viewport physical_size
    fragment_shader := fragment_shader
    subpass := (render_pass, 0)
    device := logical_device }

/-- A framebuffer as returned by the device layer: a fresh GPU object every
time `create_frame_buffers` / `recreate_swap_chain_and_images` runs.  The
`gen` field is the generation tag identifying which rebuild produced it;
`image_index` is its position in the swapchain image set. -/
structure Framebuffer where
  gen : Nat
  image_index : Nat
deriving DecidableEq

/-- The framebuffer set handed back by the device layer for a rebuild of
generation `g` with `n` swapchain images: one fresh framebuffer per image,
in image order. -/
def framebufferSet (g : Nat) (n : Nat) : List Framebuffer :=
  (List.range n).map (fun i => ⟨g, i⟩)

/-- `CommandBufferUsage` variants relevant to the recorder. -/
inductive CommandBufferUsage where
  | MultipleSubmit
  | OneTimeSubmit
  | SimultaneousUse
deriving DecidableEq

/-- One recorded GPU command, mirroring the builder calls in
`create_command_buffers`. -/
inductive Command where
  | beginRenderPass (clear_values : List FloatLit) (framebuffer : Framebuffer)
  | bindPipelineGraphics (pipeline : GraphicsPipeline)
  | bindVertexBuffers (slot : Nat) (buffer : List SVertex)
  | draw (vertex_count : Nat) (instance_count : Nat) (first_vertex : Nat) (first_inst : Nat)
  | endRenderPass
deriving DecidableEq

/-- A built primary command buffer: its declared usage and the recorded
command sequence.  Recording produces data only; no GPU work runs here. -/
structure PrimaryAutoCommandBuffer where
  usage : CommandBufferUsage
  commands : List Command
deriving DecidableEq

/-- The fixed clear color `[0.1, 0.1, 0.1, 1.0]` used by every recording. -/
def clear_color : List FloatLit := [⟨1, 1⟩, ⟨1, 1⟩, ⟨1, 1⟩, ⟨1, 0⟩]

/-- `create_command_buffers(frame_buffers, graphical_engine, pipeline,
vertex_buffer)`: one command buffer per framebuffer, in order, recorded with
MultipleSubmit usage, each containing exactly: begin render pass with the
fixed clear color on that framebuffer, bind the graphics pipeline, bind the
vertex buffer at slot 0, draw the whole vertex buffer with instance count 1
and zero first-vertex/first-instance, end render pass.  (The engine handle
only supplies the allocator and queue family index, which are opaque here.) -/
def create_command_buffers (frame_buffers : List Framebuffer)
    (pipeline : GraphicsPipeline) (vertex_buffer : List SVertex) :
    List PrimaryAutoCommandBuffer :=
  frame_buffers.map (fun framebuffer =>
    { usage := CommandBufferUsage.MultipleSubmit
      commands :=
        [ Command.beginRenderPass clear_color framebuffer,
          Command.bindPipelineGraphics pipeline,
          Command.bindVertexBuffers 0 vertex_buffer,
          Command.draw vertex_buffer.length 1 0 0,
          Command.endRenderPass ] })

/-- The mutable state of `main`'s event-loop closure: the two invalidation
flags (`window_resize_request`, `recreate_swapchain`), the current pipeline,
framebuffer set and command-buffer table, plus the ghost generation counter
for the next framebuffer set (instrumentation, never read by the logic). -/
structure LoopState where
  window_resize_request : Option PhysicalSize
  recreate_swapchain : Bool
  pipeline : GraphicsPipeline
  frame_buffers : List Framebuffer
  command_buffers : List PrimaryAutoCommandBuffer
  next_gen : Nat
deriving DecidableEq

/-- The winit events the closure matches on. -/
inductive Event where
  | closeRequested
  | resized (new_size : PhysicalSize)
  | redrawEventsCleared
  | redrawRequested
  | mainEventsCleared
  | other
deriving DecidableEq

/-- Result of `swapchain::acquire_next_image`: success with an image index
and the suboptimal flag, `AcquireError::OutOfDate`, or any other error. -/
inductive AcquireResult where
  | ok (image_i : Nat) (suboptimal : Bool)
  | outOfDate
  | error
deriving DecidableEq

/-- Result of `then_signal_fence_and_flush()` followed by the wait: success
(with `wait_ok` telling whether `future.wait(None)` itself succeeded),
`FlushError::OutOfDate`, or any other flush error. -/
inductive FlushResult where
  | ok (wait_ok : Bool)
  | outOfDate
  | error
deriving DecidableEq

/-- The external results a single redraw tick can consume: the device
layer's `recreate_swap_chain_and_images` outcome (`none` = rebuild failed,
`some n` = a fresh set of `n` framebuffers), the acquisition result, whether
`then_execute` succeeded, and the flush result. -/
structure Oracle where
  rebuild_image_count : Option Nat
  acquire : AcquireResult
  exec_ok : Bool
  flush : FlushResult
deriving DecidableEq

/-- Observations of one tick: how many rebuilds were attempted (0 or 1 by
construction), whether an attempted rebuild succeeded, whether acquisition
succeeded, which command buffer was handed to `then_execute` together with
the presented image index, and whether the flush (submission + present)
succeeded. -/
structure TickObs where
  rebuild_attempts : Nat
  rebuild_succeeded : Bool
  acquired : Bool
  submitted : Option (Nat × PrimaryAutoCommandBuffer)
  presented : Bool
deriving DecidableEq

/-- The empty observation record. -/
def TickObs.start : TickObs :=
  { rebuild_attempts := 0
    rebuild_succeeded := false
    acquired := false
    submitted := none
    presented := false }

/-- Outcome of processing one event: the new loop state, whether the loop
exited (close), whether the process panicked, and the tick observations. -/
structure TickResult where
  state : LoopState
  exited : Bool
  panicked : Bool
  obs : TickObs
deriving DecidableEq

/-- The rebuild block at the top of the `RedrawEventsCleared` arm
(lines 241-284): if either invalidation flag is set, attempt
`recreate_swap_chain_and_images`; on `None` return early (`none` here);
on success install the fresh framebuffer set and clear the recreate flag,
then, if a resize is pending, rebuild the pipeline at the requested size,
re-record every command buffer against the fresh framebuffers and new
pipeline, and clear the resize request.  With neither flag set, nothing
happens. -/
def rebuildPhase (s : LoopState) (rebuild_result : Option Nat) : Option LoopState :=
  if s.window_resize_request.isSome || s.recreate_swapchain then
    match rebuild_result with
    | some n =>
      let fbs := framebufferSet s.next_gen n
      let s1 := { s with
        frame_buffers := fbs
        next_gen := s.next_gen + 1
        recreate_swapchain := false }
      match s1.window_resize_request with
      | some new_size =>
        let new_pipeline := create_pipeline ShaderModule.vertex007
          ShaderModule.fragment007 new_size RenderPass.mk LogicalDevice.mk
        some { s1 with
          pipeline := new_pipeline
          command_buffers := create_command_buffers fbs new_pipeline vertex_buffer
          window_resize_request := none }
      | none => some s1
    | none => none
  else some s

/-- The acquisition/submission/present half of the `RedrawEventsCleared`
arm (lines 286-332): acquire the next image (OutOfDate sets the recreate
flag and aborts the tick, any other acquisition error panics); if the image
is suboptimal set the recreate flag but continue; execute the command
buffer for the acquired index and present it (`then_execute(...).unwrap()`
panics on execution error; Rust indexing `command_buffers[image_i]` panics
when out of bounds); on flush success wait for the GPU
(`future.wait(None).unwrap()` panics if the wait errs), on
`FlushError::OutOfDate` set the recreate flag, on any other flush error
only log. -/
def presentPhase (s : LoopState) (obs : TickObs) (o : Oracle) : TickResult :=
  match o.acquire with
  | AcquireResult.outOfDate =>
    ⟨{ s with recreate_swapchain := true }, false, false, obs⟩
  | AcquireResult.error =>
    ⟨s, false, true, obs⟩
  | AcquireResult.ok image_i suboptimal =>
    let s1 := if suboptimal then { s with recreate_swapchain := true } else s
    let obs1 := { obs with acquired := true }
    match s1.command_buffers[image_i]? with
    | none => ⟨s1, false, true, obs1⟩
    | some cb =>
      if o.exec_ok then
        let obs2 := { obs1 with submitted := some (image_i, cb) }
        match o.flush with
        | FlushResult.ok wait_ok =>
          if wait_ok then
            ⟨s1, false, false, { obs2 with presented := true }⟩
          else
            ⟨s1, false, true, { obs2 with presented := true }⟩
        | FlushResult.outOfDate =>
          ⟨{ s1 with recreate_swapchain := true }, false, false, obs2⟩
        | FlushResult.error =>
          ⟨s1, false, false, obs2⟩
      else
        ⟨s1, false, true, obs1⟩

/-- One full `RedrawEventsCleared` tick: the rebuild block followed, unless
it returned early, by acquisition/submission/presentation. -/
def redrawTick (s : LoopState) (o : Oracle) : TickResult :=
  let attempts : Nat :=
    if s.window_resize_request.isSome || s.recreate_swapchain then 1 else 0
  match rebuildPhase s o.rebuild_image_count with
  | none =>
    ⟨s, false, false, { TickObs.start with rebuild_attempts := attempts }⟩
  | some s1 =>
    presentPhase s1
      { TickObs.start with
        rebuild_attempts := attempts
        rebuild_succeeded := attempts == 1 } o

/-- One dispatch of the event-loop closure: close exits (after `kill()`),
`Resized` overwrites the pending resize request, `RedrawEventsCleared` runs
a full tick, everything else is ignored. -/
def step (s : LoopState) (e : Event) (o : Oracle) : TickResult :=
  match e with
  | Event.closeRequested => ⟨s, true, false, TickObs.start⟩
  | Event.resized new_size =>
    ⟨{ s with window_resize_request := some new_size }, false, false, TickObs.start⟩
  | Event.redrawEventsCleared => redrawTick s o
  | Event.redrawRequested => ⟨s, false, false, TickObs.start⟩
  | Event.mainEventsCleared => ⟨s, false, false, TickObs.start⟩
  | Event.other => ⟨s, false, false, TickObs.start⟩

/-- The state right before `event_loop.run`: no pending resize, no recreate
request, the pipeline built at the initial 1024×1024 size, the startup
framebuffer set (generation 0, `n0` swapchain images) and one command
buffer recorded per framebuffer. -/
def initState (n0 : Nat) : LoopState :=
  let pipeline := create_pipeline ShaderModule.vertex007 ShaderModule.fragment007
    ⟨1024, 1024⟩ RenderPass.mk LogicalDevice.mk
  let fbs := framebufferSet 0 n0
  { window_resize_request := none
    recreate_swapchain := false
    pipeline := pipeline
    frame_buffers := fbs
    command_buffers := create_command_buffers fbs pipeline vertex_buffer
    next_gen := 1 }

/-- Run the loop over a list of (event, oracle) pairs; `none` when some
step exits the loop or panics before the list is exhausted. -/
def runOk (s : LoopState) : List (Event × Oracle) → Option LoopState
  | [] => some s
  | (e, o) :: rest =>
    let r := step s e o
    if r.exited || r.panicked then none else runOk r.state rest

/-- The pipeline the example builds for a given size: the shader pair,
render pass and device are fixed throughout the program, so the size is the
only varying input of `create_pipeline` in the loop. -/
def pipelineFor (sz : PhysicalSize) : GraphicsPipeline :=
  create_pipeline ShaderModule.vertex007 ShaderModule.fragment007 sz
    RenderPass.mk LogicalDevice.mk

/-- A command buffer binds a given pipeline: a `bind_pipeline_graphics`
record for it occurs among its commands. -/
def bindsPipeline (cb : PrimaryAutoCommandBuffer) (p : GraphicsPipeline) : Prop :=
  Command.bindPipelineGraphics p ∈ cb.commands

/-- The ghost tracking of the most recently requested surface size: a
`Resized` event overwrites it, every other event leaves it. -/
def updateSize (L : PhysicalSize) : Event → PhysicalSize
  | Event.resized sz => sz
  | _ => L

/-- The size carried by the last `Resized` event of a trace (the start size
when the trace has none). -/
def finalRequestedSize (L : PhysicalSize) (trace : List (Event × Oracle)) :
    PhysicalSize :=
  trace.foldl (fun acc eo => updateSize acc eo.1) L

/-- The size invariant of the loop: while a resize request is pending it
carries exactly the last requested size; once it has been consumed, the
installed pipeline was built for the last requested size and every command
buffer in the table binds the installed pipeline. -/
def sizeInv (s : LoopState) (L : PhysicalSize) : Prop :=
  match s.window_resize_request with
  | some sz => sz = L
  | none =>
    s.pipeline = pipelineFor L ∧ ∀ cb ∈ s.command_buffers, bindsPipeline cb s.pipeline

/-- The suboptimal signal of an acquisition result (`false` when acquisition
did not succeed). -/
def acquireSuboptimal : AcquireResult → Bool
  | AcquireResult.ok _ sub => sub
  | _ => false

/-- Tick inputs: no rebuild needed, image 0 acquired but reported
suboptimal, execution and flush succeed. -/
def oSuboptTick : Oracle :=
  { rebuild_image_count := none
    acquire := AcquireResult.ok 0 true
    exec_ok := true
    flush := FlushResult.ok true }

/-- Tick inputs: rebuild succeeds with one swapchain image, image 0
acquired cleanly, execution and flush succeed. -/
def oRecreateTick : Oracle :=
  { rebuild_image_count := some 1
    acquire := AcquireResult.ok 0 false
    exec_ok := true
    flush := FlushResult.ok true }

/-- Tick inputs: the swapchain rebuild fails (`recreate_swap_chain_and_images`
returns `None`). -/
def oRebuildFail : Oracle :=
  { rebuild_image_count := none
    acquire := AcquireResult.ok 0 false
    exec_ok := true
    flush := FlushResult.ok true }

/-- Tick inputs: acquisition reports the surface out of date. -/
def oOutOfDateTick : Oracle :=
  { rebuild_image_count := none
    acquire := AcquireResult.outOfDate
    exec_ok := true
    flush := FlushResult.ok true }

/-- Tick inputs: rebuild succeeds, image 0 acquired suboptimal, execution
and flush succeed. -/
def oRebuildThenSubopt : Oracle :=
  { rebuild_image_count := some 1
    acquire := AcquireResult.ok 0 true
    exec_ok := true
    flush := FlushResult.ok true }

/-- Tick inputs: clean acquisition and successful flush, but the wait on
the completion fence fails. -/
def oWaitErr : Oracle :=
  { rebuild_image_count := none
    acquire := AcquireResult.ok 0 false
    exec_ok := true
    flush := FlushResult.ok false }

/-- Tick inputs: clean acquisition, but the flush fails with an error other
than `OutOfDate`. -/
def oFlushErr : Oracle :=
  { rebuild_image_count := none
    acquire := AcquireResult.ok 0 false
    exec_ok := true
    flush := FlushResult.error }

/-- Tick inputs: acquisition fails with an error other than `OutOfDate`. -/
def oAcqErr : Oracle :=
  { rebuild_image_count := none
    acquire := AcquireResult.error
    exec_ok := true
    flush := FlushResult.ok true }

/-- The startup state for one swapchain image with the recreate flag raised
(as after a suboptimal or out-of-date signal). -/
def sGuard : LoopState := { initState 1 with recreate_swapchain := true }

/-- The loop state after a first tick in which image 0 was acquired
suboptimal and presented: the recreate flag is now raised while the
command-buffer table still holds the startup recordings. -/
def sK : LoopState := (step (initState 1) Event.redrawEventsCleared oSuboptTick).state

/-- The command buffer recorded at startup for image 0: it begins its render
pass on the generation-0 framebuffer. -/
def staleCb : PrimaryAutoCommandBuffer :=
  { usage := CommandBufferUsage.MultipleSubmit
    commands :=
      [ Command.beginRenderPass clear_color ⟨0, 0⟩,
        Command.bindPipelineGraphics (pipelineFor ⟨1024, 1024⟩),
        Command.bindVertexBuffers 0 vertex_buffer,
        Command.draw 3 1 0 0,
        Command.endRenderPass ] }

/-- A trace with two resize events followed by one redraw tick whose
rebuild succeeds: only the second size must survive. -/
def resizeTrace : List (Event × Oracle) :=
  [ (Event.resized ⟨800, 600⟩, oRecreateTick),
    (Event.resized ⟨640, 480⟩, oRecreateTick),
    (Event.redrawEventsCleared, oRecreateTick) ]

/-- The state the loop reaches after `resizeTrace` from the startup state. -/
def resizeTraceResult : LoopState :=
  (runOk (initState 1) resizeTrace).getD (initState 1)

/-! ## General lemmas about the tick phases -/

/-- The present/submit half of a tick never touches the pipeline, the
command-buffer table, the resize request, the framebuffer set or the
generation counter: only the recreate flag can change. -/
theorem presentPhase_state_core (s : LoopState) (obs : TickObs) (o : Oracle) :
    (presentPhase s obs o).state.pipeline = s.pipeline ∧
    (presentPhase s obs o).state.command_buffers = s.command_buffers ∧
    (presentPhase s obs o).state.window_resize_request = s.window_resize_request ∧
    (presentPhase s obs o).state.frame_buffers = s.frame_buffers ∧
    (presentPhase s obs o).state.next_gen = s.next_gen := by
  unfold presentPhase
  rcases o with ⟨rb, acq, ex, fl⟩
  cases acq with
  | outOfDate => simp
  | error => simp
  | ok i sub =>
    cases sub <;> dsimp only <;>
      cases hcb : s.command_buffers[i]? <;> simp [hcb] <;>
      cases ex <;> simp <;>
      cases fl with
      | ok w => cases w <;> simp
      | outOfDate => simp
      | error => simp

/-- The present/submit half of a tick never touches the rebuild
observations. -/
theorem presentPhase_obs_core (s : LoopState) (obs : TickObs) (o : Oracle) :
    (presentPhase s obs o).obs.rebuild_attempts = obs.rebuild_attempts ∧
    (presentPhase s obs o).obs.rebuild_succeeded = obs.rebuild_succeeded := by
  unfold presentPhase
  rcases o with ⟨rb, acq, ex, fl⟩
  cases acq with
  | outOfDate => simp
  | error => simp
  | ok i sub =>
    cases sub <;> dsimp only <;>
      cases hcb : s.command_buffers[i]? <;> simp [hcb] <;>
      cases ex <;> simp <;>
      cases fl with
      | ok w => cases w <;> simp
      | outOfDate => simp
      | error => simp

/-- When the rebuild block does not return early, the state it hands to the
present phase has the recreate flag down. -/
theorem rebuildPhase_recreate_false (s : LoopState) (r : Option Nat) (s1 : LoopState)
    (hr : rebuildPhase s r = some s1) : s1.recreate_swapchain = false := by
  unfold rebuildPhase at hr
  by_cases hg : (s.window_resize_request.isSome || s.recreate_swapchain) = true
  · rw [if_pos hg] at hr
    cases r with
    | none => simp at hr
    | some n =>
      dsimp only at hr
      cases hw : s.window_resize_request with
      | some sz => rw [hw] at hr; cases hr; rfl
      | none => rw [hw] at hr; cases hr; rfl
  · rw [if_neg hg] at hr
    cases hr
    simp only [Bool.or_eq_true, not_or, Bool.not_eq_true] at hg
    exact hg.2

/-- A redraw tick attempts exactly one rebuild when an invalidation flag is
set at its start and none otherwise. -/
theorem redrawTick_attempts (s : LoopState) (o : Oracle) :
    (redrawTick s o).obs.rebuild_attempts =
      (if s.window_resize_request.isSome || s.recreate_swapchain then 1 else 0) := by
  unfold redrawTick
  cases hr : rebuildPhase s o.rebuild_image_count with
  | none => simp
  | some s1 => simpa using (presentPhase_obs_core s1 _ o).1

/-- Every command buffer produced by the recorder binds the pipeline it was
recorded with. -/
theorem binds_of_mem_create (fbs : List Framebuffer) (p : GraphicsPipeline)
    (vb : List SVertex) (cb : PrimaryAutoCommandBuffer)
    (h : cb ∈ create_command_buffers fbs p vb) : bindsPipeline cb p := by
  unfold create_command_buffers at h
  rcases List.mem_map.mp h with ⟨fb, _, rfl⟩
  simp [bindsPipeline]

/-- The rebuild block preserves the size invariant. -/
theorem rebuildPhase_sizeInv (s : LoopState) (L : PhysicalSize) (r : Option Nat)
    (s1 : LoopState) (hr : rebuildPhase s r = some s1) (h : sizeInv s L) :
    sizeInv s1 L := by
  unfold rebuildPhase at hr
  by_cases hg : (s.window_resize_request.isSome || s.recreate_swapchain) = true
  · rw [if_pos hg] at hr
    cases r with
    | none => simp at hr
    | some n =>
      dsimp only at hr
      cases hw : s.window_resize_request with
      | some sz =>
        rw [hw] at hr
        cases hr
        have hszL : sz = L := by unfold sizeInv at h; rw [hw] at h; exact h
        subst hszL
        unfold sizeInv
        dsimp only
        refine ⟨rfl, ?_⟩
        intro cb hcb
        exact binds_of_mem_create _ _ _ _ hcb
      | none =>
        rw [hw] at hr
        cases hr
        unfold sizeInv at h ⊢
        rw [hw] at h
        exact h
  · rw [if_neg hg] at hr
    cases hr
    exact h

/-- The size invariant only depends on the resize request, the pipeline and
the command-buffer table. -/
theorem sizeInv_congr (s s1 : LoopState) (L : PhysicalSize)
    (hw : s1.window_resize_request = s.window_resize_request)
    (hp : s1.pipeline = s.pipeline)
    (hc : s1.command_buffers = s.command_buffers)
    (h : sizeInv s L) : sizeInv s1 L := by
  unfold sizeInv at h ⊢
  rw [hw, hp, hc]
  exact h

/-- Every event dispatch preserves the size invariant, tracked against the
ghost last-requested size. -/
theorem sizeInv_step (s : LoopState) (L : PhysicalSize) (e : Event) (o : Oracle)
    (h : sizeInv s L) : sizeInv (step s e o).state (updateSize L e) := by
  cases e with
  | closeRequested => exact h
  | resized sz => exact rfl
  | redrawRequested => exact h
  | mainEventsCleared => exact h
  | other => exact h
  | redrawEventsCleared =>
    show sizeInv (redrawTick s o).state L
    unfold redrawTick
    cases hr : rebuildPhase s o.rebuild_image_count with
    | none => exact h
    | some s1 =>
      dsimp only
      have h1 := rebuildPhase_sizeInv s L _ s1 hr h
      have hcore := presentPhase_state_core s1
        { TickObs.start with
          rebuild_attempts :=
            if s.window_resize_request.isSome || s.recreate_swapchain then 1 else 0
          rebuild_succeeded :=
            (if s.window_resize_request.isSome || s.recreate_swapchain then 1 else 0) == 1 } o
      exact sizeInv_congr _ _ L hcore.2.2.1 hcore.1 hcore.2.1 h1

/-- Any run of the loop preserves the size invariant, ending at the size of
the trace's last resize event. -/
theorem runOk_sizeInv (trace : List (Event × Oracle)) (s : LoopState) (L : PhysicalSize)
    (h : sizeInv s L) (s2 : LoopState) (hrun : runOk s trace = some s2) :
    sizeInv s2 (finalRequestedSize L trace) := by
  induction trace generalizing s L with
  | nil =>
    cases hrun
    exact h
  | cons eo rest ih =>
    obtain ⟨e, o⟩ := eo
    unfold runOk at hrun
    dsimp only at hrun
    by_cases hx : ((step s e o).exited || (step s e o).panicked) = true
    · rw [if_pos hx] at hrun; cases hrun
    · rw [if_neg hx] at hrun
      have hstep := sizeInv_step s L e o h
      have := ih (step s e o).state (updateSize L e) hstep hrun
      simpa [finalRequestedSize] using this

/-- In a tick whose present succeeded, the end-of-tick recreate flag equals
the acquisition's suboptimal signal (given the flag was down entering the
present phase and the observation record came in with `presented := false`). -/
theorem presentPhase_presented_recreate (s : LoopState) (obs : TickObs) (o : Oracle)
    (hrec : s.recreate_swapchain = false) (hobs : obs.presented = false)
    (hp : (presentPhase s obs o).obs.presented = true) :
    (presentPhase s obs o).state.recreate_swapchain = acquireSuboptimal o.acquire := by
  unfold presentPhase at hp ⊢
  rcases o with ⟨rb, acq, ex, fl⟩
  dsimp only at hp ⊢
  cases acq with
  | outOfDate => simp [hobs] at hp
  | error => simp [hobs] at hp
  | ok i sub =>
    cases sub <;> simp only [Bool.false_eq_true, if_false, if_true] at hp ⊢ <;>
      cases hcb : s.command_buffers[i]? <;> dsimp only at hp ⊢ <;>
      cases ex <;>
      cases fl with
      | ok w => cases w <;> simp_all [acquireSuboptimal]
      | outOfDate => simp_all [acquireSuboptimal]
      | error => simp_all [acquireSuboptimal]

/-! ## The claims -/

/-- C1: the claimed invariant — every command buffer in the table, and in
particular every submitted one, was recorded against the currently current
framebuffer set and pipeline — is violated by the code.  Witnessed run: on
tick 1 image 0 is acquired suboptimal, which raises the recreate flag; on
tick 2 the rebuild succeeds and installs the generation-1 framebuffer set,
but since no resize is pending the command buffers are not re-recorded, and
the tick then submits the startup command buffer, which begins its render
pass on the stale generation-0 framebuffer — not a member of the recording
of the current framebuffer set and pipeline. -/
theorem C1_stale_submission_on_recreate :
    runOk (initState 1) [(Event.redrawEventsCleared, oSuboptTick)] = some sK ∧
    (step sK Event.redrawEventsCleared oRecreateTick).obs.rebuild_succeeded = true ∧
    (step sK Event.redrawEventsCleared oRecreateTick).obs.submitted = some (0, staleCb) ∧
    staleCb.commands.head? = some (Command.beginRenderPass clear_color ⟨0, 0⟩) ∧
    (step sK Event.redrawEventsCleared oRecreateTick).state.frame_buffers =
      framebufferSet 1 1 ∧
    staleCb ∉ create_command_buffers
      (step sK Event.redrawEventsCleared oRecreateTick).state.frame_buffers
      (step sK Event.redrawEventsCleared oRecreateTick).state.pipeline vertex_buffer ∧
    (step sK Event.redrawEventsCleared oRecreateTick).panicked = false := by
  decide

/-- C2: when an invalidation flag is set and the swapchain rebuild returns
`None`, the tick does not panic, does no further work (no acquisition, no
submission, no presentation), leaves the whole state — both flags included —
unchanged, and the next redraw tick attempts the rebuild again whatever its
inputs are. -/
theorem C2_rebuild_failure_is_retried (s : LoopState) (o : Oracle)
    (hguard : (s.window_resize_request.isSome || s.recreate_swapchain) = true)
    (hfail : o.rebuild_image_count = none) :
    (step s Event.redrawEventsCleared o).state = s ∧
    (step s Event.redrawEventsCleared o).panicked = false ∧
    (step s Event.redrawEventsCleared o).exited = false ∧
    (step s Event.redrawEventsCleared o).obs.rebuild_attempts = 1 ∧
    (step s Event.redrawEventsCleared o).obs.acquired = false ∧
    (step s Event.redrawEventsCleared o).obs.submitted = none ∧
    (step s Event.redrawEventsCleared o).obs.presented = false ∧
    ∀ o2 : Oracle, (step (step s Event.redrawEventsCleared o).state
      Event.redrawEventsCleared o2).obs.rebuild_attempts = 1 := by
  have hreb : rebuildPhase s o.rebuild_image_count = none := by
    rw [hfail]
    unfold rebuildPhase
    rw [if_pos hguard]
  have hstep : step s Event.redrawEventsCleared o =
      ⟨s, false, false, { TickObs.start with rebuild_attempts := 1 }⟩ := by
    show redrawTick s o = _
    unfold redrawTick
    rw [hreb, hguard]
    rfl
  rw [hstep]
  refine ⟨rfl, rfl, rfl, rfl, rfl, rfl, rfl, ?_⟩
  intro o2
  show (redrawTick s o2).obs.rebuild_attempts = 1
  rw [redrawTick_attempts, hguard]
  rfl

/-- C2 witness: from the startup state with the recreate flag raised, a
failed rebuild changes nothing and the next tick retries. -/
theorem C2_rebuild_failure_is_retried_witness :
    ((sGuard.window_resize_request.isSome || sGuard.recreate_swapchain) = true) ∧
    oRebuildFail.rebuild_image_count = none ∧
    (step sGuard Event.redrawEventsCleared oRebuildFail).state = sGuard ∧
    (step sGuard Event.redrawEventsCleared oRebuildFail).panicked = false ∧
    (step sGuard Event.redrawEventsCleared oRebuildFail).obs.submitted = none ∧
    (step (step sGuard Event.redrawEventsCleared oRebuildFail).state
      Event.redrawEventsCleared oRecreateTick).obs.rebuild_attempts = 1 := by
  have h := C2_rebuild_failure_is_retried sGuard oRebuildFail (by decide) (by decide)
  exact ⟨by decide, by decide, h.1, h.2.1, h.2.2.2.2.2.1, h.2.2.2.2.2.2.2 oRecreateTick⟩

/-- C3: when a rebuild succeeds on a tick with an invalidation flag set, its
effect is exactly: with no resize pending (plain recreate), only the
framebuffer set is replaced and the recreate flag cleared — the pipeline and
the command-buffer table are untouched for the rest of the tick; with a
resize pending, the pipeline is rebuilt at the requested size and every
command buffer is re-recorded against the fresh framebuffers and the new
pipeline. -/
theorem C3_recreate_vs_resize_effects (s : LoopState) (o : Oracle) (n : Nat)
    (hsucc : o.rebuild_image_count = some n)
    (hguard : (s.window_resize_request.isSome || s.recreate_swapchain) = true) :
    rebuildPhase s (some n) = some (
      match s.window_resize_request with
      | none =>
        { s with frame_buffers := framebufferSet s.next_gen n
                 next_gen := s.next_gen + 1
                 recreate_swapchain := false }
      | some new_size =>
        { s with frame_buffers := framebufferSet s.next_gen n
                 next_gen := s.next_gen + 1
                 recreate_swapchain := false
                 pipeline := pipelineFor new_size
                 command_buffers := create_command_buffers (framebufferSet s.next_gen n)
                   (pipelineFor new_size) vertex_buffer
                 window_resize_request := none }) ∧
    (s.window_resize_request = none →
      (step s Event.redrawEventsCleared o).state.pipeline = s.pipeline ∧
      (step s Event.redrawEventsCleared o).state.command_buffers = s.command_buffers ∧
      (step s Event.redrawEventsCleared o).state.frame_buffers =
        framebufferSet s.next_gen n) ∧
    (∀ sz, s.window_resize_request = some sz →
      (step s Event.redrawEventsCleared o).state.pipeline = pipelineFor sz ∧
      (step s Event.redrawEventsCleared o).state.command_buffers =
        create_command_buffers (framebufferSet s.next_gen n) (pipelineFor sz) vertex_buffer ∧
      (step s Event.redrawEventsCleared o).state.frame_buffers = framebufferSet s.next_gen n ∧
      (step s Event.redrawEventsCleared o).state.window_resize_request = none) := by
  have hchar : rebuildPhase s (some n) = some (
      match s.window_resize_request with
      | none =>
        { s with frame_buffers := framebufferSet s.next_gen n
                 next_gen := s.next_gen + 1
                 recreate_swapchain := false }
      | some new_size =>
        { s with frame_buffers := framebufferSet s.next_gen n
                 next_gen := s.next_gen + 1
                 recreate_swapchain := false
                 pipeline := pipelineFor new_size
                 command_buffers := create_command_buffers (framebufferSet s.next_gen n)
                   (pipelineFor new_size) vertex_buffer
                 window_resize_request := none }) := by
    unfold rebuildPhase
    rw [if_pos hguard]
    cases hw : s.window_resize_request with
    | none => simp [hw]
    | some sz => simp [hw, pipelineFor]
  have hs1 : ∀ s1, rebuildPhase s o.rebuild_image_count = some s1 →
      (step s Event.redrawEventsCleared o).state.pipeline = s1.pipeline ∧
      (step s Event.redrawEventsCleared o).state.command_buffers = s1.command_buffers ∧
      (step s Event.redrawEventsCleared o).state.frame_buffers = s1.frame_buffers ∧
      (step s Event.redrawEventsCleared o).state.window_resize_request =
        s1.window_resize_request := by
    intro s1 hr
    simp only [step]
    unfold redrawTick
    rw [hr]
    dsimp only
    have hc := presentPhase_state_core s1
      { TickObs.start with
        rebuild_attempts :=
          if s.window_resize_request.isSome || s.recreate_swapchain then 1 else 0
        rebuild_succeeded :=
          (if s.window_resize_request.isSome || s.recreate_swapchain then 1 else 0) == 1 } o
    exact ⟨hc.1, hc.2.1, hc.2.2.2.1, hc.2.2.1⟩
  refine ⟨hchar, ?_, ?_⟩
  · intro hw
    have hr : rebuildPhase s o.rebuild_image_count = some
        { s with frame_buffers := framebufferSet s.next_gen n
                 next_gen := s.next_gen + 1
                 recreate_swapchain := false } := by
      rw [hsucc, hchar, hw]
    obtain ⟨hp, hc, hf, _⟩ := hs1 _ hr
    exact ⟨hp, hc, hf⟩
  · intro sz hw
    have hr : rebuildPhase s o.rebuild_image_count = some
        { s with frame_buffers := framebufferSet s.next_gen n
                 next_gen := s.next_gen + 1
                 recreate_swapchain := false
                 pipeline := pipelineFor sz
                 command_buffers := create_command_buffers (framebufferSet s.next_gen n)
                   (pipelineFor sz) vertex_buffer
                 window_resize_request := none } := by
      rw [hsucc, hchar, hw]
    obtain ⟨hp, hc, hf, hwd⟩ := hs1 _ hr
    exact ⟨hp, hc, hf, hwd⟩

/-- C3 witness: a plain recreate (recreate flag up, no resize pending) with
a successful rebuild leaves the pipeline and the command-buffer table
untouched and installs the fresh framebuffer set. -/
theorem C3_recreate_vs_resize_effects_witness :
    oRecreateTick.rebuild_image_count = some 1 ∧
    ((sGuard.window_resize_request.isSome || sGuard.recreate_swapchain) = true) ∧
    (step sGuard Event.redrawEventsCleared oRecreateTick).state.pipeline =
      sGuard.pipeline ∧
    (step sGuard Event.redrawEventsCleared oRecreateTick).state.command_buffers =
      sGuard.command_buffers ∧
    (step sGuard Event.redrawEventsCleared oRecreateTick).state.frame_buffers =
      framebufferSet sGuard.next_gen 1 := by
  have h := C3_recreate_vs_resize_effects sGuard oRecreateTick 1 (by decide) (by decide)
  obtain ⟨hp, hc, hf⟩ := h.2.1 (by decide)
  exact ⟨by decide, by decide, hp, hc, hf⟩

/-- C4: for every trace of events, whenever the loop has no pending resize
request (it has stabilized), the installed pipeline was built for the size
of the trace's last `Resized` event (the startup 1024×1024 when there was
none) and every command buffer in the table binds that pipeline; moreover a
`Resized` event always overwrites any pending unprocessed resize request. -/
theorem C4_last_resize_wins (n0 : Nat) (trace : List (Event × Oracle)) (s2 : LoopState)
    (hrun : runOk (initState n0) trace = some s2)
    (hstable : s2.window_resize_request = none) :
    s2.pipeline = pipelineFor (finalRequestedSize ⟨1024, 1024⟩ trace) ∧
    (∀ cb ∈ s2.command_buffers, bindsPipeline cb s2.pipeline) ∧
    (∀ (s3 : LoopState) (sz : PhysicalSize) (o : Oracle),
      (step s3 (Event.resized sz) o).state.window_resize_request = some sz) := by
  have h0 : sizeInv (initState n0) ⟨1024, 1024⟩ := by
    unfold sizeInv
    exact ⟨rfl, fun cb hcb => binds_of_mem_create _ _ _ cb hcb⟩
  have h2 := runOk_sizeInv trace _ _ h0 s2 hrun
  unfold sizeInv at h2
  rw [hstable] at h2
  exact ⟨h2.1, h2.2, fun s3 sz o => rfl⟩

/-- C4 witness: after resize requests for 800×600 and then 640×480 followed
by one successful redraw tick, the installed pipeline is the one built for
640×480, the last requested size. -/
theorem C4_last_resize_wins_witness :
    runOk (initState 1) resizeTrace = some resizeTraceResult ∧
    resizeTraceResult.window_resize_request = none ∧
    resizeTraceResult.pipeline = pipelineFor ⟨640, 480⟩ ∧
    finalRequestedSize ⟨1024, 1024⟩ resizeTrace = ⟨640, 480⟩ := by
  refine ⟨by decide, by decide, ?_, by decide⟩
  have h := C4_last_resize_wins 1 resizeTrace resizeTraceResult (by decide) (by decide)
  rw [h.1]
  decide

/-- C5 counterexample: a tick that starts with the recreate flag raised,
whose rebuild succeeds, whose acquisition reports the image suboptimal and
whose present succeeds, ends with the recreate flag still `true` — the
claimed equivalence "flag false at end of tick iff that tick's rebuild
succeeded" is false on this tick, since its rebuild succeeded. -/
theorem C5_recreate_flag_cex :
    (step sGuard Event.redrawEventsCleared oRebuildThenSubopt).obs.presented = true ∧
    (step sGuard Event.redrawEventsCleared oRebuildThenSubopt).obs.rebuild_attempts = 1 ∧
    (step sGuard Event.redrawEventsCleared oRebuildThenSubopt).obs.rebuild_succeeded = true ∧
    (step sGuard Event.redrawEventsCleared oRebuildThenSubopt).panicked = false ∧
    (step sGuard Event.redrawEventsCleared oRebuildThenSubopt).state.recreate_swapchain
      = true := by
  decide

/-- C5 amended: for every tick that ends with a successful present, the
recreate flag at the end of the tick equals the suboptimal signal returned
by that tick's acquisition — in such a tick any attempted rebuild
necessarily succeeded (the observed rebuild success equals the tick's need
for one), so the flag is false iff acquisition did not report the image
suboptimal. -/
theorem C5_recreate_flag_amended (s : LoopState) (o : Oracle)
    (hpres : (step s Event.redrawEventsCleared o).obs.presented = true) :
    (step s Event.redrawEventsCleared o).state.recreate_swapchain =
      acquireSuboptimal o.acquire ∧
    (step s Event.redrawEventsCleared o).obs.rebuild_succeeded =
      (s.window_resize_request.isSome || s.recreate_swapchain) := by
  simp only [step] at hpres ⊢
  unfold redrawTick at hpres ⊢
  cases hr : rebuildPhase s o.rebuild_image_count with
  | none =>
    rw [hr] at hpres
    simp [TickObs.start] at hpres
  | some s1 =>
    rw [hr] at hpres
    dsimp only at hpres ⊢
    have hrec := rebuildPhase_recreate_false s _ s1 hr
    constructor
    · exact presentPhase_presented_recreate s1 _ o hrec rfl hpres
    · rw [(presentPhase_obs_core s1 _ o).2]
      cases hgb : (s.window_resize_request.isSome || s.recreate_swapchain) <;>
        simp [hgb]

/-- C5 amended witness: on the counterexample tick the flag tracks the
suboptimal signal and the rebuild success tracks the need for a rebuild. -/
theorem C5_recreate_flag_amended_witness :
    (step sGuard Event.redrawEventsCleared oRebuildThenSubopt).obs.presented = true ∧
    (step sGuard Event.redrawEventsCleared oRebuildThenSubopt).state.recreate_swapchain =
      acquireSuboptimal oRebuildThenSubopt.acquire ∧
    (step sGuard Event.redrawEventsCleared oRebuildThenSubopt).obs.rebuild_succeeded =
      (sGuard.window_resize_request.isSome || sGuard.recreate_swapchain) := by
  have h := C5_recreate_flag_amended sGuard oRebuildThenSubopt (by decide)
  exact ⟨by decide, h.1, h.2⟩

/-- C6: a tick whose acquisition reports the surface out of date raises the
recreate flag and aborts: nothing is submitted, nothing is presented, no
panic and no exit; and the following redraw tick attempts exactly one
rebuild whatever its inputs are. -/
theorem C6_out_of_date_aborts_tick (s s1 : LoopState) (o o2 : Oracle)
    (hreb : rebuildPhase s o.rebuild_image_count = some s1)
    (hacq : o.acquire = AcquireResult.outOfDate) :
    (step s Event.redrawEventsCleared o).state.recreate_swapchain = true ∧
    (step s Event.redrawEventsCleared o).obs.submitted = none ∧
    (step s Event.redrawEventsCleared o).obs.acquired = false ∧
    (step s Event.redrawEventsCleared o).obs.presented = false ∧
    (step s Event.redrawEventsCleared o).panicked = false ∧
    (step s Event.redrawEventsCleared o).exited = false ∧
    (step (step s Event.redrawEventsCleared o).state
      Event.redrawEventsCleared o2).obs.rebuild_attempts = 1 := by
  have hstep : step s Event.redrawEventsCleared o =
      ⟨{ s1 with recreate_swapchain := true }, false, false,
       { TickObs.start with
         rebuild_attempts :=
           if s.window_resize_request.isSome || s.recreate_swapchain then 1 else 0
         rebuild_succeeded :=
           (if s.window_resize_request.isSome || s.recreate_swapchain then 1 else 0) == 1 }⟩ := by
    show redrawTick s o = _
    unfold redrawTick
    rw [hreb]
    dsimp only
    unfold presentPhase
    rw [hacq]
  rw [hstep]
  refine ⟨rfl, rfl, rfl, rfl, rfl, rfl, ?_⟩
  show (redrawTick { s1 with recreate_swapchain := true } o2).obs.rebuild_attempts = 1
  rw [redrawTick_attempts]
  simp

/-- C6 witness: out-of-date acquisition on a clean tick submits nothing and
the next tick attempts exactly one rebuild. -/
theorem C6_out_of_date_aborts_tick_witness :
    rebuildPhase (initState 1) oOutOfDateTick.rebuild_image_count = some (initState 1) ∧
    oOutOfDateTick.acquire = AcquireResult.outOfDate ∧
    (step (initState 1) Event.redrawEventsCleared oOutOfDateTick).state.recreate_swapchain
      = true ∧
    (step (initState 1) Event.redrawEventsCleared oOutOfDateTick).obs.submitted = none ∧
    (step (initState 1) Event.redrawEventsCleared oOutOfDateTick).panicked = false ∧
    (step (step (initState 1) Event.redrawEventsCleared oOutOfDateTick).state
      Event.redrawEventsCleared oRecreateTick).obs.rebuild_attempts = 1 := by
  have h := C6_out_of_date_aborts_tick (initState 1) (initState 1) oOutOfDateTick
    oRecreateTick (by decide) (by decide)
  exact ⟨by decide, by decide, h.1, h.2.1, h.2.2.2.2.1, h.2.2.2.2.2.2⟩

/-- C7: a tick whose acquisition succeeds but reports the image suboptimal
raises the recreate flag and nevertheless submits the command buffer for
the acquired index and presents it in the same tick. -/
theorem C7_suboptimal_still_presents (s s1 : LoopState) (o : Oracle) (i : Nat)
    (cb : PrimaryAutoCommandBuffer)
    (hreb : rebuildPhase s o.rebuild_image_count = some s1)
    (hacq : o.acquire = AcquireResult.ok i true)
    (hcb : s1.command_buffers[i]? = some cb)
    (hexec : o.exec_ok = true)
    (hflush : o.flush = FlushResult.ok true) :
    (step s Event.redrawEventsCleared o).state.recreate_swapchain = true ∧
    (step s Event.redrawEventsCleared o).obs.submitted = some (i, cb) ∧
    (step s Event.redrawEventsCleared o).obs.presented = true ∧
    (step s Event.redrawEventsCleared o).panicked = false ∧
    (step s Event.redrawEventsCleared o).exited = false := by
  simp only [step]
  unfold redrawTick
  rw [hreb]
  dsimp only
  unfold presentPhase
  rw [hacq]
  simp [hcb, hexec, hflush]

/-- C7 witness: the startup tick with a suboptimal acquisition still
submits and presents image 0 and raises the recreate flag. -/
theorem C7_suboptimal_still_presents_witness :
    rebuildPhase (initState 1) oSuboptTick.rebuild_image_count = some (initState 1) ∧
    oSuboptTick.acquire = AcquireResult.ok 0 true ∧
    (initState 1).command_buffers[0]? = some staleCb ∧
    (step (initState 1) Event.redrawEventsCleared oSuboptTick).state.recreate_swapchain
      = true ∧
    (step (initState 1) Event.redrawEventsCleared oSuboptTick).obs.submitted =
      some (0, staleCb) ∧
    (step (initState 1) Event.redrawEventsCleared oSuboptTick).obs.presented = true := by
  have h := C7_suboptimal_still_presents (initState 1) (initState 1) oSuboptTick 0 staleCb
    (by decide) (by decide) (by decide) (by decide) (by decide)
  exact ⟨by decide, by decide, by decide, h.1, h.2.1, h.2.2.1⟩

/-- C8: the recorder produces exactly one command buffer per framebuffer in
the same order, each with MultipleSubmit usage and containing exactly the
sequence: begin render pass with the fixed clear color on that framebuffer,
bind the graphics pipeline, bind the vertex buffer at slot 0, one draw over
the whole vertex buffer (instance count 1, first vertex 0, first instance
0), end render pass; the triangle's vertex buffer has length 3. -/
theorem C8_record_contract (frame_buffers : List Framebuffer)
    (pipeline : GraphicsPipeline) (vb : List SVertex) :
    (create_command_buffers frame_buffers pipeline vb).length = frame_buffers.length ∧
    (∀ (i : Nat) (fb : Framebuffer), frame_buffers[i]? = some fb →
      (create_command_buffers frame_buffers pipeline vb)[i]? = some
        { usage := CommandBufferUsage.MultipleSubmit
          commands :=
            [ Command.beginRenderPass clear_color fb,
              Command.bindPipelineGraphics pipeline,
              Command.bindVertexBuffers 0 vb,
              Command.draw vb.length 1 0 0,
              Command.endRenderPass ] }) ∧
    vertex_buffer.length = 3 := by
  refine ⟨by simp [create_command_buffers], ?_, rfl⟩
  intro i fb hfb
  simp [create_command_buffers, List.getElem?_map, hfb]

/-- C8 witness: for a two-framebuffer set, the recorder's second output is
the recording for the second framebuffer, with the triangle's three
vertices drawn in one call. -/
theorem C8_record_contract_witness :
    (framebufferSet 0 2)[1]? = some ⟨0, 1⟩ ∧
    (create_command_buffers (framebufferSet 0 2) (pipelineFor ⟨1024, 1024⟩)
      vertex_buffer).length = (framebufferSet 0 2).length ∧
    (create_command_buffers (framebufferSet 0 2) (pipelineFor ⟨1024, 1024⟩)
      vertex_buffer)[1]? = some
      { usage := CommandBufferUsage.MultipleSubmit
        commands :=
          [ Command.beginRenderPass clear_color ⟨0, 1⟩,
            Command.bindPipelineGraphics (pipelineFor ⟨1024, 1024⟩),
            Command.bindVertexBuffers 0 vertex_buffer,
            Command.draw vertex_buffer.length 1 0 0,
            Command.endRenderPass ] } := by
  have h := C8_record_contract (framebufferSet 0 2) (pipelineFor ⟨1024, 1024⟩) vertex_buffer
  exact ⟨by decide, h.1, h.2.1 1 ⟨0, 1⟩ (by decide)⟩

/-- C9 counterexample: the claim extends the non-fatal log-and-drop path to
"any error while flushing or waiting on the completion fence", but an error
from `future.wait(None)` after a successful flush makes the loop panic
(`unwrap`), as this tick shows. -/
theorem C9_wait_error_panics_cex :
    oWaitErr.flush = FlushResult.ok false ∧
    (step (initState 1) Event.redrawEventsCleared oWaitErr).obs.presented = true ∧
    (step (initState 1) Event.redrawEventsCleared oWaitErr).panicked = true := by
  decide

/-- C9 amended: for every flush failure other than the out-of-date signal,
the failure is only logged: no panic, no exit, the frame is dropped (not
presented) and the loop state is exactly what it was at the submission
point (the recreate flag keeps whatever the suboptimal signal set it to);
an error while waiting on the completion fence after a successful flush,
by contrast, panics. -/
theorem C9_flush_error_only_logged (s s1 : LoopState) (o : Oracle) (i : Nat)
    (sub : Bool) (cb : PrimaryAutoCommandBuffer)
    (hreb : rebuildPhase s o.rebuild_image_count = some s1)
    (hacq : o.acquire = AcquireResult.ok i sub)
    (hcb : s1.command_buffers[i]? = some cb)
    (hexec : o.exec_ok = true)
    (hflush : o.flush = FlushResult.error) :
    (step s Event.redrawEventsCleared o).panicked = false ∧
    (step s Event.redrawEventsCleared o).exited = false ∧
    (step s Event.redrawEventsCleared o).obs.presented = false ∧
    (step s Event.redrawEventsCleared o).obs.submitted = some (i, cb) ∧
    (step s Event.redrawEventsCleared o).state =
      (if sub then { s1 with recreate_swapchain := true } else s1) := by
  simp only [step]
  unfold redrawTick
  rw [hreb]
  dsimp only
  unfold presentPhase
  rw [hacq]
  cases sub <;>
    simp [hcb, hexec, hflush, TickObs.start]

/-- C9 amended witness: a clean acquisition followed by an unrecognized
flush error drops the frame and leaves the state untouched. -/
theorem C9_flush_error_only_logged_witness :
    oFlushErr.flush = FlushResult.error ∧
    (step (initState 1) Event.redrawEventsCleared oFlushErr).panicked = false ∧
    (step (initState 1) Event.redrawEventsCleared oFlushErr).obs.presented = false ∧
    (step (initState 1) Event.redrawEventsCleared oFlushErr).state = initState 1 := by
  have h := C9_flush_error_only_logged (initState 1) (initState 1) oFlushErr 0 false
    staleCb (by decide) (by decide) (by decide) (by decide) (by decide)
  exact ⟨by decide, h.1, h.2.2.1, h.2.2.2.2⟩

/-- C10: an acquisition error other than the out-of-date signal makes the
frame loop panic (the process aborts); nothing is submitted or presented on
that tick — acquisition failures, unlike submission failures, are not
routed through the non-fatal log-and-drop path. -/
theorem C10_acquire_error_panics (s s1 : LoopState) (o : Oracle)
    (hreb : rebuildPhase s o.rebuild_image_count = some s1)
    (hacq : o.acquire = AcquireResult.error) :
    (step s Event.redrawEventsCleared o).panicked = true ∧
    (step s Event.redrawEventsCleared o).obs.submitted = none ∧
    (step s Event.redrawEventsCleared o).obs.presented = false ∧
    (step s Event.redrawEventsCleared o).exited = false := by
  simp only [step]
  unfold redrawTick
  rw [hreb]
  dsimp only
  unfold presentPhase
  rw [hacq]
  exact ⟨rfl, rfl, rfl, rfl⟩

/-- C10 witness: an unrecognized acquisition error on the startup state
panics without submitting anything. -/
theorem C10_acquire_error_panics_witness :
    oAcqErr.acquire = AcquireResult.error ∧
    (step (initState 1) Event.redrawEventsCleared oAcqErr).panicked = true ∧
    (step (initState 1) Event.redrawEventsCleared oAcqErr).obs.submitted = none := by
  have h := C10_acquire_error_panics (initState 1) (initState 1) oAcqErr
    (by decide) (by decide)
  exact ⟨by decide, h.1, h.2.1⟩

end VulkanTriangle
